import Mathlib

/-!
Verification of the PID-gated training-corpus sync pipeline of the
phd-practice repository.

The definitions below are shallow embeddings of the Python sources:

* `src/quick_sync_pids.py` — the file-level ML gate ("PERMANENT ML GATE
  POLICIES") and the exists-check upsert loop over the `documents` table;
* `src/sync_parent_pids.py` — `analyze_parent_records` (item-level ML
  counting), the remote-script upsert loop with `sync_version` and
  `sync_log` provenance, and `main`'s control flow;
* `src/backend/app/services/graphql_sync.py` —
  `parse_graphql_media_response`, `sync_graphql_item_to_database`,
  `bulk_sync_from_graphql_response` and
  `validate_graphql_against_database`.

Databases are modelled as in-memory lists of rows in insertion order; SQL
`UPDATE ... WHERE pid = x` is a map over rows, `INSERT` is an append, and
the existence check `SELECT pid FROM documents WHERE pid = x` is `List.any`.
Timestamps (`NOW()`) are an abstract `Nat` supplied per run.  Failures of
individual persistence statements are injected through a boolean oracle,
modelling the exceptions the per-record `try/except` of the scripts
catches.  Two views of the remote script's store are embedded: `spLoop`
records only the statement-level outcomes (what the script's counters and
sync_log see), while `TxConn`/`spLoopTx` additionally carry the shared
psycopg2 transaction of the loop — an aborted transaction makes every
later statement raise until COMMIT, and COMMIT of an aborted transaction
is a rollback.
-/

namespace PhdPractice

/-! ## Data model of `quick_sync_pids.py`

The GraphQL query of `quick_sync_pids.py` fetches, per parent record,
`pid`, `title`, `project_start_date` and `attached_media` where each media
item carries `pdf_files { role filename }` and
`digital_assets { use_for_ml filename }`.  A missing/null `pid` (Python
falsy) is modelled by the empty string. -/

/-- One entry of `pdf_files` as fetched by `quick_sync_pids.py`. -/
structure PdfFile where
  role : String
  filename : String
  deriving Repr, DecidableEq

/-- One entry of `digital_assets` with its file-level ML approval flag. -/
structure DigitalAsset where
  filename : String
  use_for_ml : Bool
  deriving Repr, DecidableEq

/-- One element of `attached_media` as seen by `quick_sync_pids.py`. -/
structure AttachedMedia where
  pdf_files : List PdfFile
  digital_assets : List DigitalAsset
  deriving Repr, DecidableEq

/-- One parent record of the `records_v1` batch in `quick_sync_pids.py`. -/
structure ParentRecord where
  pid : String
  title : String
  project_start_date : String
  attached_media : List AttachedMedia
  deriving Repr, DecidableEq

/-- The `asset_ml_map` dictionary of `quick_sync_pids.py`: built by
iterating over `digital_assets` and assigning
`asset_ml_map[filename] = use_for_ml`, so a later asset with the same
filename overwrites an earlier one.  `some b` means the filename is a key
of the dict with value `b`; `none` means the key is absent. -/
def assetMlLookup (assets : List DigitalAsset) (fname : String) : Option Bool :=
  (assets.reverse.find? (fun a => a.filename == fname)).map (·.use_for_ml)

/-- The file-level ML gate of `quick_sync_pids.py` for a single file of
`pdf_files`: the file is counted iff its role is `pdf_master` and
`pdf_filename in asset_ml_map and asset_ml_map[pdf_filename]` holds. -/
def pdfEligible (media : AttachedMedia) (p : PdfFile) : Bool :=
  p.role == "pdf_master" && (assetMlLookup media.digital_assets p.filename).getD false

/-- The files of one media item that pass the file-level ML gate, in
discovery order (the order of the nested loops of `quick_sync_pids.py`). -/
def mediaEligiblePdfs (media : AttachedMedia) : List PdfFile :=
  media.pdf_files.filter (fun p => pdfEligible media p)

/-- The per-media contribution to `pdf_count` in `quick_sync_pids.py`. -/
def mediaPdfCount (media : AttachedMedia) : Nat :=
  (mediaEligiblePdfs media).length

/-- The `pdf_count` accumulated over `attached_media` for one record. -/
def recordPdfCount (r : ParentRecord) : Nat :=
  (r.attached_media.map mediaPdfCount).sum

/-- Modelled from the spec: the eligibility predicate exactly as the spec
sentence words it — "filter MasterFiles to role ∈ {pdf_master, tiff_master};
a MasterFile is eligible iff its filename is present in that mapping and
the flag is true".  Compared against `pdfEligible`, the gate the code
implements. -/
def specMasterEligible (media : AttachedMedia) (p : PdfFile) : Bool :=
  (p.role == "pdf_master" || p.role == "tiff_master")
    && (assetMlLookup media.digital_assets p.filename).getD false

/-- Numeric value of a decimal digit character, `none` otherwise. -/
def charDigit? (c : Char) : Option Nat :=
  if '0' ≤ c ∧ c ≤ '9' then some (c.toNat - 48) else none

/-- Decimal value of a non-empty all-digit character list, as `int` parses
it; `none` when a character is not a digit or the list is empty. -/
def digitsToNat? (cs : List Char) : Option Nat :=
  if cs.isEmpty then none
  else
    cs.foldl
      (fun acc c =>
        match acc, charDigit? c with
        | some n, some d => some (10 * n + d)
        | _, _ => none)
      (some 0)

/-- Year extraction of `quick_sync_pids.py` and `sync_parent_pids.py`:
`int(year_str[:4]) if year_str and len(year_str) >= 4 else 1970`.  The
scripts only ever receive ISO date strings here, so only the plain-digit
form of `int` is modelled; a slice `int` would reject raises `ValueError`
in the script and is totalised to the 1970 sentinel. -/
def extractYear (s : String) : Int :=
  if s ≠ "" ∧ 4 ≤ s.data.length then ((digitsToNat? (s.data.take 4)).map Int.ofNat).getD 1970
  else 1970

/-! ## The `documents` table as written by `quick_sync_pids.py` -/

/-- The `doc_metadata` JSON written by `quick_sync_pids.py`:
`{'pdf_count': ..., 'synced_from': 'ddr_graphql'}`. -/
structure QuickMeta where
  pdf_count : Nat
  synced_from : String
  deriving Repr, DecidableEq

/-- One row of the `documents` table, restricted to the columns touched by
`quick_sync_pids.py`. -/
structure QuickDoc where
  document_id : String
  title : String
  publication_year : Int
  filename : String
  pid : String
  pdf_count : Nat
  doc_metadata : QuickMeta
  last_synced_at : Nat
  deriving Repr, DecidableEq

/-- The UPDATE branch of `quick_sync_pids.py` applied to one row: rows whose
`pid` matches get new title, year, count, metadata and timestamp; other
columns (`document_id`, `filename`) are untouched. -/
def quickUpdateRow (now : Nat) (r : ParentRecord) (row : QuickDoc) : QuickDoc :=
  if row.pid == r.pid then
    { row with
        title := r.title
        publication_year := extractYear r.project_start_date
        pdf_count := recordPdfCount r
        doc_metadata := ⟨recordPdfCount r, "ddr_graphql"⟩
        last_synced_at := now }
  else row

/-- The INSERT branch of `quick_sync_pids.py` for a record whose pid is not
yet in `documents`. -/
def quickInsertRow (now : Nat) (r : ParentRecord) : QuickDoc :=
  { document_id := "doc_pid_" ++ r.pid
    title := r.title
    publication_year := extractYear r.project_start_date
    filename := r.pid ++ ".pdf"
    pid := r.pid
    pdf_count := recordPdfCount r
    doc_metadata := ⟨recordPdfCount r, "ddr_graphql"⟩
    last_synced_at := now }

/-- Per-record body of the `for record in records` loop of
`quick_sync_pids.py`: skip falsy pid, otherwise exists-check upsert.
Returns the new table plus (1,0) for the `Inserted` report line and (0,1)
for the `Updated` report line. -/
def quickSyncRecord (now : Nat) (db : List QuickDoc) (r : ParentRecord) :
    List QuickDoc × Nat × Nat :=
  if r.pid = "" then (db, 0, 0)
  else if db.any (fun row => row.pid == r.pid) then
    (db.map (quickUpdateRow now r), 0, 1)
  else
    (db ++ [quickInsertRow now r], 1, 0)

/-- One full run of the `quick_sync_pids.py` loop over a fetched batch,
record by record in batch order.  The result is the final table together
with the total number of `Inserted` and `Updated` report lines. -/
def quickSyncRun (now : Nat) : List QuickDoc → List ParentRecord →
    List QuickDoc × Nat × Nat
  | db, [] => (db, 0, 0)
  | db, r :: rs =>
      let step := quickSyncRecord now db r
      let rest := quickSyncRun now step.1 rs
      (rest.1, step.2.1 + rest.2.1, step.2.2 + rest.2.2)

/-! ## Data model of `sync_parent_pids.py`

The query of `sync_parent_pids.py` fetches richer parent records; its
`digital_assets` entries carry only the `use_for_ml` flag (no filename),
which is why `analyze_parent_records` gates at the media-item level.  The
descriptive pass-through fields (`scope_and_content`, `ddr_period`,
`project_theme`, `methodology`, `epistemic_stance`, `project_title`,
`copyright_holder`) are opaque to the pipeline and are bundled here as a
single `descriptive` value. -/

/-- One `digital_assets` entry as fetched by `sync_parent_pids.py`. -/
structure SpAsset where
  use_for_ml : Bool
  deriving Repr, DecidableEq

/-- One `attached_media` entry as used by `analyze_parent_records`: only
the presence of `pdf_files` and the asset flags matter there. -/
structure SpMedia where
  pdf_files : List PdfFile
  digital_assets : List SpAsset
  deriving Repr, DecidableEq

/-- One parent record of the `sync_parent_pids.py` batch. -/
structure SpRecord where
  pid : String
  title : String
  project_start_date : String
  attached_media : List SpMedia
  descriptive : String
  deriving Repr, DecidableEq

/-- The metadata snapshot built by `analyze_parent_records` (counts plus
opaque descriptive fields, `synced_from` and `synced_at`). -/
structure SpMeta where
  pdf_count : Nat
  tiff_count : Nat
  media_count : Nat
  descriptive : String
  synced_from : String
  synced_at : Nat
  deriving Repr, DecidableEq

/-- One normalized record produced by `analyze_parent_records`. -/
structure SyncRec where
  pid : String
  title : String
  year : Int
  pdf_count : Nat
  tiff_count : Nat
  metadata : SpMeta
  deriving Repr, DecidableEq

/-- The item-level ML count of `analyze_parent_records`: one per media item
that has any pdf file and any digital asset flagged `use_for_ml`. -/
def spMediaCounts (media : List SpMedia) : Nat :=
  (media.filter (fun m =>
    (!m.pdf_files.isEmpty) && m.digital_assets.any (·.use_for_ml))).length

/-- The per-record normalization of `analyze_parent_records`: records with
a falsy pid are skipped, the rest yield a `SyncRec` with item-level
`pdf_count`, `tiff_count = 0` and the provenance metadata snapshot. -/
def analyzeRecord (now : Nat) (r : SpRecord) : Option SyncRec :=
  if r.pid = "" then none
  else
    let cnt := spMediaCounts r.attached_media
    some
      { pid := r.pid
        title := r.title
        year := extractYear r.project_start_date
        pdf_count := cnt
        tiff_count := 0
        metadata :=
          ⟨cnt, 0, r.attached_media.length, r.descriptive, "ddr_graphql", now⟩ }

/-- The whole of `analyze_parent_records` over a fetched batch. -/
def analyzeParentRecords (now : Nat) (records : List SpRecord) : List SyncRec :=
  records.filterMap (analyzeRecord now)

/-! ## The remote-script upsert loop of `sync_parent_pids.py`

This is the `remote_script` string executed by `sync_to_database`: it
opens one `sync_log` row with status `running`, upserts every record with
a per-record `try/except`, and closes the `sync_log` row exactly once with
status `completed` or `partial`. -/

/-- One row of the `documents` table as touched by the remote script. -/
structure SpDoc where
  document_id : String
  title : String
  publication_year : Int
  filename : String
  pid : String
  pdf_count : Nat
  tiff_count : Nat
  doc_metadata : SpMeta
  last_synced_at : Nat
  sync_version : Nat
  deriving Repr, DecidableEq

/-- One row of the `sync_log` table, with the columns the remote script
writes.  `completed` models whether `sync_completed_at` has been set. -/
structure SyncLogRow where
  sync_id : String
  sync_type : String
  sync_source : String
  status : String
  triggered_by : String
  records_new : Nat
  records_updated : Nat
  records_failed : Nat
  pids_processed : List String
  pids_failed : List String
  completed : Bool
  deriving Repr, DecidableEq

/-- The remote script's UPDATE for one row: matching rows get the new
content, `last_synced_at = NOW()` and `sync_version = sync_version + 1`;
`document_id` and `filename` are not in the SET list. -/
def spUpdateRow (now : Nat) (r : SyncRec) (row : SpDoc) : SpDoc :=
  if row.pid == r.pid then
    { row with
        title := r.title
        publication_year := r.year
        pdf_count := r.pdf_count
        tiff_count := r.tiff_count
        doc_metadata := r.metadata
        last_synced_at := now
        sync_version := row.sync_version + 1 }
  else row

/-- The remote script's INSERT for a record whose pid is not yet present:
`document_id = doc_pid_{pid}`, `filename = {pid}.pdf`, `sync_version = 1`. -/
def spInsertRow (now : Nat) (r : SyncRec) : SpDoc :=
  { document_id := "doc_pid_" ++ r.pid
    title := r.title
    publication_year := r.year
    filename := r.pid ++ ".pdf"
    pid := r.pid
    pdf_count := r.pdf_count
    tiff_count := r.tiff_count
    doc_metadata := r.metadata
    last_synced_at := now
    sync_version := 1 }

/-- The exists-check upsert of the remote script.  The boolean is `true`
when the INSERT branch was taken (the record was new). -/
def spUpsert (now : Nat) (docs : List SpDoc) (r : SyncRec) : List SpDoc × Bool :=
  if docs.any (fun row => row.pid == r.pid) then
    (docs.map (spUpdateRow now r), false)
  else
    (docs ++ [spInsertRow now r], true)

/-- The counters and pid lists accumulated by the remote script's loop. -/
structure SpCounters where
  records_new : Nat
  records_updated : Nat
  records_failed : Nat
  pids_processed : List String
  pids_failed : List String
  deriving Repr, DecidableEq

/-- Zero-initialised counters, as at the top of the remote script. -/
def SpCounters.init : SpCounters := ⟨0, 0, 0, [], []⟩

/-- The statement-level view of the remote script's persisting loop,
record by record in batch order.  The `fails` oracle injects the
exceptions the per-record `try/except` catches: a failing record is
counted in `records_failed` / `pids_failed`, the others are upserted and
counted in `records_new` / `records_updated`.  This view records the
outcomes the script's counters and sync_log see; it does not carry the
coupling through the loop's shared psycopg2 transaction (a statement
failure aborts the transaction for the records after it and the final
COMMIT discards the records before it) — that is modelled by
`spLoopTx` below. -/
def spLoop (fails : SyncRec → Bool) (now : Nat) : List SpDoc →
    List SyncRec → List SpDoc × SpCounters
  | docs, [] => (docs, SpCounters.init)
  | docs, r :: rs =>
      if fails r then
        let rest := spLoop fails now docs rs
        (rest.1, { rest.2 with
                     records_failed := rest.2.records_failed + 1
                     pids_failed := r.pid :: rest.2.pids_failed })
      else
        let step := spUpsert now docs r
        let rest := spLoop fails now step.1 rs
        if step.2 then
          (rest.1, { rest.2 with
                       records_new := rest.2.records_new + 1
                       pids_processed := r.pid :: rest.2.pids_processed })
        else
          (rest.1, { rest.2 with
                       records_updated := rest.2.records_updated + 1
                       pids_processed := r.pid :: rest.2.pids_processed })

/-- The INSERT INTO sync_log executed at the start of the remote script. -/
def spStartLog (sid : String) (log : List SyncLogRow) : List SyncLogRow :=
  log ++ [{ sync_id := sid
            sync_type := "manual"
            sync_source := "ddr_graphql_parent_pids"
            status := "running"
            triggered_by := "script:sync_parent_pids.py (remote)"
            records_new := 0
            records_updated := 0
            records_failed := 0
            pids_processed := []
            pids_failed := []
            completed := false }]

/-- The closing UPDATE of the remote script: the row with this `sync_id`
receives the final counters and status
`'completed' if records_failed == 0 else 'partial'`. -/
def spCompleteLog (sid : String) (c : SpCounters) (log : List SyncLogRow) :
    List SyncLogRow :=
  log.map (fun row =>
    if row.sync_id == sid then
      { row with
          status := if c.records_failed == 0 then "completed" else "partial"
          records_new := c.records_new
          records_updated := c.records_updated
          records_failed := c.records_failed
          pids_processed := c.pids_processed
          pids_failed := c.pids_failed
          completed := true }
    else row)

/-- One full run of the remote script: open the sync_log row, persist
every record with per-record failure isolation, close the sync_log row. -/
def remoteScriptRun (fails : SyncRec → Bool) (now : Nat) (sid : String)
    (docs : List SpDoc) (log : List SyncLogRow) (records : List SyncRec) :
    List SpDoc × List SyncLogRow × SpCounters :=
  let log1 := spStartLog sid log
  let step := spLoop fails now docs records
  (step.1, spCompleteLog sid step.2 log1, step.2)

/-- The remote script's psycopg2 connection with its one shared
transaction per loop.  `committed` is the `documents` table as of the
last COMMIT, `pending` additionally holds the current transaction's
writes, and `aborted` is set once any statement of the transaction
raises — from then on every statement of the same transaction raises
`InFailedSqlTransaction` until the transaction ends (the script has no
rollback in its per-record `except`). -/
structure TxConn where
  committed : List SpDoc
  pending : List SpDoc
  aborted : Bool
  deriving Repr, DecidableEq

/-- COMMIT on the shared connection: PostgreSQL turns the COMMIT of an
aborted transaction into a ROLLBACK (psycopg2 reports success), so the
pending writes are discarded; a clean transaction's writes become
durable. -/
def TxConn.commit (conn : TxConn) : TxConn :=
  if conn.aborted then ⟨conn.committed, conn.committed, false⟩
  else ⟨conn.pending, conn.pending, false⟩

/-- The remote script's persisting loop on the shared connection: inside
an aborted transaction every record's statements raise and are counted
failed; a failing statement aborts the transaction; otherwise the upsert
executes against the transaction's pending state.  The counters are the
ones the script accumulates (they live in Python, not in the aborted
transaction). -/
def spLoopTx (fails : SyncRec → Bool) (now : Nat) : TxConn →
    List SyncRec → TxConn × SpCounters
  | conn, [] => (conn, SpCounters.init)
  | conn, r :: rs =>
      if conn.aborted then
        let rest := spLoopTx fails now conn rs
        (rest.1, { rest.2 with
                     records_failed := rest.2.records_failed + 1
                     pids_failed := r.pid :: rest.2.pids_failed })
      else if fails r then
        let rest := spLoopTx fails now { conn with aborted := true } rs
        (rest.1, { rest.2 with
                     records_failed := rest.2.records_failed + 1
                     pids_failed := r.pid :: rest.2.pids_failed })
      else
        let step := spUpsert now conn.pending r
        let rest := spLoopTx fails now { conn with pending := step.1 } rs
        if step.2 then
          (rest.1, { rest.2 with
                       records_new := rest.2.records_new + 1
                       pids_processed := r.pid :: rest.2.pids_processed })
        else
          (rest.1, { rest.2 with
                       records_updated := rest.2.records_updated + 1
                       pids_processed := r.pid :: rest.2.pids_processed })

/-- The remote script run with the shared transaction made explicit.  The
sync_log INSERT and its closing UPDATE each sit in their own transaction
committed on the spot (the script calls `conn.commit()` right after
each), so they are durable either way; the document upserts share the one
transaction of the loop, committed only after the loop.  Returns the
durable `documents` table, the final sync_log and the counters. -/
def remoteScriptRunTx (fails : SyncRec → Bool) (now : Nat) (sid : String)
    (docs : List SpDoc) (log : List SyncLogRow) (records : List SyncRec) :
    List SpDoc × List SyncLogRow × SpCounters :=
  let log1 := spStartLog sid log
  let step := spLoopTx fails now ⟨docs, docs, false⟩ records
  let conn2 := step.1.commit
  (conn2.committed, spCompleteLog sid step.2 log1, step.2)

/-- The observable outcome of `sync_parent_pids.main`. -/
structure MainOutcome where
  exit_code : Nat
  docs : List SpDoc
  sync_log : List SyncLogRow
  fetch_attempts : Nat
  deriving Repr, DecidableEq

/-- The control flow of `sync_parent_pids.main`: `fetch_graphql_records` is
called exactly once and yields either a batch or a transport failure
(`none`); on failure, or on an empty analysis, main prints and exits with
code 1 before any database work; otherwise it hands the normalized records
to the remote-script run.  (The SSH/scp transport of `sync_to_database` is
an operational detail and is modelled as the direct call it performs.) -/
def mainRun (fetchResult : Option (List SpRecord)) (fails : SyncRec → Bool)
    (now : Nat) (sid : String) (docs : List SpDoc) (log : List SyncLogRow) :
    MainOutcome :=
  match fetchResult with
  | none => ⟨1, docs, log, 1⟩
  | some rs =>
      let parsed := analyzeParentRecords now rs
      if parsed.isEmpty then ⟨1, docs, log, 1⟩
      else
        let run := remoteScriptRun fails now sid docs log parsed
        ⟨0, run.1, run.2.1, 1⟩

/-! ## Data model of `graphql_sync.py`

`parse_graphql_media_response` works over `all_media_items`, each with
`pdf_files`, `tiff_files` and `jpg_derivatives` arrays;
`sync_graphql_item_to_database` additionally reads descriptive fields of
the item and of the chosen master file.  Fields the pipeline passes
through without inspecting (`public_uri`, `copyright_holder`, ...) are
bundled as one opaque `descriptive` value. -/

/-- One file entry (`pdf_files` / `tiff_files` / `jpg_derivatives`) of a
media item in the GraphQL response consumed by `graphql_sync.py`. -/
structure MasterFile where
  role : String
  url : String
  filename : String
  label : String
  used_for_ml : Bool
  deriving Repr, DecidableEq

/-- One element of `all_media_items`. -/
structure GMediaItem where
  id : String
  pid : String
  title : String
  pdf_files : List MasterFile
  tiff_files : List MasterFile
  jpg_derivatives : List MasterFile
  descriptive : String
  deriving Repr, DecidableEq

/-- The GraphQL response body handed to the service. -/
structure GJson where
  all_media_items : List GMediaItem
  deriving Repr, DecidableEq

/-- One entry of the `training_eligible` list built by
`parse_graphql_media_response`: the file type tag, the item, and the
master-file list chosen for it. -/
structure EligibleEntry where
  ftype : String
  item : GMediaItem
  master_files : List MasterFile
  deriving Repr, DecidableEq

/-- The categorisation result of `parse_graphql_media_response`. -/
structure ParseResult where
  total_items : Nat
  training_eligible : List EligibleEntry
  jpg_only : List GMediaItem
  no_media : List GMediaItem
  deriving Repr, DecidableEq

/-- The classification of one item inside
`parse_graphql_media_response`: items without a pid are skipped; an item
with any `pdf_files` is training-eligible as `pdf`; otherwise any
`tiff_files` makes it eligible as `tiff`; otherwise `jpg_derivatives`
puts it in `jpg_only`; otherwise `no_media`. -/
def classifyItem (acc : ParseResult) (item : GMediaItem) : ParseResult :=
  if item.pid = "" then acc
  else if !item.pdf_files.isEmpty then
    { acc with training_eligible :=
        acc.training_eligible ++ [⟨"pdf", item, item.pdf_files⟩] }
  else if !item.tiff_files.isEmpty then
    { acc with training_eligible :=
        acc.training_eligible ++ [⟨"tiff", item, item.tiff_files⟩] }
  else if !item.jpg_derivatives.isEmpty then
    { acc with jpg_only := acc.jpg_only ++ [item] }
  else
    { acc with no_media := acc.no_media ++ [item] }

/-- The whole of `parse_graphql_media_response`. -/
def parseGraphqlMediaResponse (json : GJson) : ParseResult :=
  json.all_media_items.foldl classifyItem
    ⟨json.all_media_items.length, [], [], []⟩

/-- Leftmost match of the regex `19[6-8][0-9]` at the head of a character
list, as in `re.search(r'(19[6-8][0-9])', title)`. -/
def yearMatchAt : List Char → Option Nat
  | '1' :: '9' :: c :: d :: _ =>
      if '6' ≤ c ∧ c ≤ '8' ∧ d.isDigit then
        some (1900 + (c.toNat - 48) * 10 + (d.toNat - 48))
      else none
  | _ => none

/-- Leftmost search of the regex `19[6-8][0-9]` over a character list. -/
def findYearAux : List Char → Option Nat
  | [] => none
  | c :: rest =>
      match yearMatchAt (c :: rest) with
      | some y => some y
      | none => findYearAux rest

/-- Year extraction of `sync_graphql_item_to_database`:
`re.search(r'(19[6-8][0-9])', title)`, defaulting to 1970. -/
def findYearInTitle (title : String) : Nat :=
  (findYearAux title.data).getD 1970

/-- The `authority_data` snapshot cached on the document row. -/
structure AuthorityData where
  id : String
  pid : String
  title : String
  file_type : String
  master_label : String
  master_url : String
  used_for_ml : Bool
  descriptive : String
  deriving Repr, DecidableEq

/-- One row of the `documents` table as created by
`sync_graphql_item_to_database`. -/
structure GDoc where
  document_id : String
  pid : String
  authority_id : String
  authority_data : AuthorityData
  title : String
  publication_year : Nat
  filename : String
  file_type : String
  s3_key : String
  file_size_bytes : Nat
  processing_status : String
  deriving Repr, DecidableEq

/-- The state the GraphQL sync service acts on: the `documents` table, a
fresh-id supply standing for `uuid.uuid4().hex[:12]`, and the `sync_log`
table (which `bulk_sync_from_graphql_response` never touches). -/
structure GState where
  docs : List GDoc
  next_id : Nat
  sync_log : List SyncLogRow
  deriving Repr, DecidableEq

/-- A locally generated document id (`doc_` plus a fresh unique suffix). -/
def docIdOf (n : Nat) : String := "doc_" ++ toString n

/-- The document row built by `sync_graphql_item_to_database` for a new
pid from the item and its chosen master file. -/
def mkGDoc (n : Nat) (item : GMediaItem) (mf : MasterFile) (ftype : String) :
    GDoc :=
  { document_id := docIdOf n
    pid := item.pid
    authority_id := item.id
    authority_data :=
      { id := item.id
        pid := item.pid
        title := item.title
        file_type := ftype
        master_label := mf.label
        master_url := mf.url
        used_for_ml := mf.used_for_ml
        descriptive := item.descriptive }
    title := item.title
    publication_year := findYearInTitle item.title
    filename := mf.filename
    file_type := if ftype = "tiff" then "image/tiff" else "application/pdf"
    s3_key := mf.url
    file_size_bytes := 0
    processing_status := "pending" }

/-- `sync_graphql_item_to_database` with `dry_run=False`: `none` when the
item has no pid (error), `some document_id` otherwise; an existing pid is
returned as-is with no state change, a new pid appends exactly one row. -/
def syncGraphqlItemToDatabase (st : GState) (item : GMediaItem)
    (mf : MasterFile) (ftype : String) : Option String × GState :=
  if item.pid = "" then (none, st)
  else
    match st.docs.find? (fun row => row.pid == item.pid) with
    | some existing => (some existing.document_id, st)
    | none =>
        (some (docIdOf st.next_id),
         { st with
             docs := st.docs ++ [mkGDoc st.next_id item mf ftype]
             next_id := st.next_id + 1 })

/-- The `for eligible in parsed['training_eligible']` loop of
`bulk_sync_from_graphql_response`, entry by entry: sync the first master
file when the entry has one, else count the entry as skipped.  The
counters are (synced, skipped, errors). -/
def bulkLoop : GState → List EligibleEntry → GState × Nat × Nat × Nat
  | st, [] => (st, 0, 0, 0)
  | st, e :: es =>
      match e.master_files with
      | [] =>
          let rest := bulkLoop st es
          (rest.1, rest.2.1, rest.2.2.1 + 1, rest.2.2.2)
      | mf :: _ =>
          let step := syncGraphqlItemToDatabase st e.item mf e.ftype
          let rest := bulkLoop step.2 es
          match step.1 with
          | some _ => (rest.1, rest.2.1 + 1, rest.2.2.1, rest.2.2.2)
          | none => (rest.1, rest.2.1, rest.2.2.1, rest.2.2.2 + 1)

/-- The whole of `bulk_sync_from_graphql_response` with `dry_run=False`:
parse, then sync every training-eligible entry.  Returns the final state
and the (synced, skipped, errors) statistics. -/
def bulkSyncFromGraphqlResponse (json : GJson) (st : GState) :
    GState × Nat × Nat × Nat :=
  bulkLoop st (parseGraphqlMediaResponse json).training_eligible

/-- The pid set `graphql_pids` assembled by
`validate_graphql_against_database` from the training-eligible items. -/
def batchPids (json : GJson) : Finset String :=
  (((parseGraphqlMediaResponse json).training_eligible.map (fun e => e.item.pid)).filter
    (fun p => p ≠ "")).toFinset

/-- The validation report of `validate_graphql_against_database`, over the
batch pids and the persisted pid set `db_pids`. -/
structure ValidationReport where
  needs_sync : Finset String
  orphaned : Finset String
  already_synced : Finset String
  deriving DecidableEq

/-- The three-way comparison of `validate_graphql_against_database`:
`needs_sync = graphql_pids - db_pids`, `orphaned = db_pids - graphql_pids`,
`already_synced = graphql_pids & db_pids`. -/
def validateGraphqlAgainstDatabase (json : GJson) (db_pids : Finset String) :
    ValidationReport :=
  { needs_sync := batchPids json \ db_pids
    orphaned := db_pids \ batchPids json
    already_synced := batchPids json ∩ db_pids }

/-! ## Theorems -/

/-- C2: for every MediaItem whose DigitalAsset list is empty, the file-level
ML gate of `quick_sync_pids.py` classifies zero files as training-eligible,
regardless of the MasterFiles the item carries — the gate fails closed,
never open. -/
theorem fail_closed_on_empty_assets (media : AttachedMedia)
    (h : media.digital_assets = []) :
    mediaEligiblePdfs media = [] ∧ mediaPdfCount media = 0 := by
  have hnil : mediaEligiblePdfs media = [] := by
    unfold mediaEligiblePdfs
    refine List.filter_eq_nil_iff.mpr ?_
    intro p _
    simp [pdfEligible, assetMlLookup, h]
  exact ⟨hnil, by simp [mediaPdfCount, hnil]⟩

/-- Witness for `fail_closed_on_empty_assets` at a MediaItem that carries a
master PDF but no DigitalAssets. -/
theorem fail_closed_on_empty_assets_witness :
    mediaEligiblePdfs ⟨[⟨"pdf_master", "X.pdf"⟩], []⟩ = []
    ∧ mediaPdfCount ⟨[⟨"pdf_master", "X.pdf"⟩], []⟩ = 0 :=
  fail_closed_on_empty_assets ⟨[⟨"pdf_master", "X.pdf"⟩], []⟩ rfl

/-- C1 counterexample: the claim's master set is {pdf_master, tiff_master},
but the implemented gate (`quick_sync_pids.py`) counts only files with role
`pdf_master`.  A master file with role `tiff_master` whose filename is
flagged `use_for_ml=true` is eligible under the claim's wording
(`specMasterEligible`) yet is not classified eligible by the code. -/
theorem master_set_counterexample :
    specMasterEligible ⟨[⟨"tiff_master", "a.tif"⟩], [⟨"a.tif", true⟩]⟩
        ⟨"tiff_master", "a.tif"⟩ = true
    ∧ pdfEligible ⟨[⟨"tiff_master", "a.tif"⟩], [⟨"a.tif", true⟩]⟩
        ⟨"tiff_master", "a.tif"⟩ = false
    ∧ mediaPdfCount ⟨[⟨"tiff_master", "a.tif"⟩], [⟨"a.tif", true⟩]⟩ = 0 := by
  decide

/-- C1 (amended): for every MediaItem, a file is classified
training-eligible iff its role is `pdf_master` and its filename appears in
the mapping built from the item's DigitalAssets with the flag true; files
with any other role (browser/display derivatives, and `tiff_master` alike)
are never eligible, even if flagged.  In particular, for an item with two
master files of the same role but different filenames where only the first
filename is flagged `use_for_ml=true`, exactly that one file is eligible. -/
theorem file_level_gate_characterization (media : AttachedMedia) :
    (∀ p ∈ media.pdf_files,
      (pdfEligible media p = true ↔
        p.role = "pdf_master"
          ∧ assetMlLookup media.digital_assets p.filename = some true))
    ∧ (∀ f g, media.pdf_files = [f, g] → f.role = "pdf_master" →
        g.role = "pdf_master" → f.filename ≠ g.filename →
        assetMlLookup media.digital_assets f.filename = some true →
        assetMlLookup media.digital_assets g.filename ≠ some true →
        mediaEligiblePdfs media = [f] ∧ mediaPdfCount media = 1) := by
  have hchar : ∀ p : PdfFile,
      pdfEligible media p = true ↔
        p.role = "pdf_master"
          ∧ assetMlLookup media.digital_assets p.filename = some true := by
    intro p
    unfold pdfEligible
    cases hlk : assetMlLookup media.digital_assets p.filename with
    | none => simp [hlk]
    | some b => cases b <;> simp [hlk]
  constructor
  · intro p _
    exact hchar p
  · intro f g hfg hf hg _ hlf hlg
    have hefil : mediaEligiblePdfs media = [f] := by
      unfold mediaEligiblePdfs
      rw [hfg]
      have h1 : pdfEligible media f = true := (hchar f).mpr ⟨hf, hlf⟩
      have h2 : pdfEligible media g = false := by
        cases h2t : pdfEligible media g with
        | false => rfl
        | true => exact absurd ((hchar g).mp h2t).2 hlg
      simp [List.filter, h1, h2]
    exact ⟨hefil, by simp [mediaPdfCount, hefil]⟩

/-- Witness for `file_level_gate_characterization` at a MediaItem with two
master PDFs `a.pdf` and `b.pdf` where only `a.pdf` is flagged. -/
theorem file_level_gate_characterization_witness :
    pdfEligible
        ⟨[⟨"pdf_master", "a.pdf"⟩, ⟨"pdf_master", "b.pdf"⟩],
         [⟨"a.pdf", true⟩, ⟨"b.pdf", false⟩]⟩
        ⟨"pdf_master", "a.pdf"⟩ = true
    ∧ mediaPdfCount
        ⟨[⟨"pdf_master", "a.pdf"⟩, ⟨"pdf_master", "b.pdf"⟩],
         [⟨"a.pdf", true⟩, ⟨"b.pdf", false⟩]⟩ = 1 := by
  constructor
  · exact ((file_level_gate_characterization _).1 _ (by decide)).mpr
      ⟨rfl, by decide⟩
  · exact ((file_level_gate_characterization _).2 _ _ rfl rfl rfl
      (by decide) (by decide) (by decide)).2

/-- C3: for every batch and persisted pid set, the validation report of
`validate_graphql_against_database` is the three-way partition of
`B ∪ P`: `needs_sync = B \ P`, `already_synced = B ∩ P`,
`orphaned = P \ B`, the three parts are pairwise disjoint, and together
they cover `B ∪ P`, so every pid of `B ∪ P` is accounted exactly once. -/
theorem reconciliation_partition (json : GJson) (P : Finset String) :
    (∀ p, p ∈ (validateGraphqlAgainstDatabase json P).needs_sync ↔
        p ∈ batchPids json ∧ p ∉ P)
    ∧ (∀ p, p ∈ (validateGraphqlAgainstDatabase json P).already_synced ↔
        p ∈ batchPids json ∧ p ∈ P)
    ∧ (∀ p, p ∈ (validateGraphqlAgainstDatabase json P).orphaned ↔
        p ∈ P ∧ p ∉ batchPids json)
    ∧ ((validateGraphqlAgainstDatabase json P).needs_sync
        ∪ (validateGraphqlAgainstDatabase json P).already_synced
        ∪ (validateGraphqlAgainstDatabase json P).orphaned
          = batchPids json ∪ P)
    ∧ Disjoint (validateGraphqlAgainstDatabase json P).needs_sync
        (validateGraphqlAgainstDatabase json P).already_synced
    ∧ Disjoint (validateGraphqlAgainstDatabase json P).needs_sync
        (validateGraphqlAgainstDatabase json P).orphaned
    ∧ Disjoint (validateGraphqlAgainstDatabase json P).already_synced
        (validateGraphqlAgainstDatabase json P).orphaned := by
  refine ⟨?_, ?_, ?_, ?_, ?_, ?_, ?_⟩ <;>
    simp [validateGraphqlAgainstDatabase, Finset.ext_iff,
      Finset.disjoint_left] <;>
    intro p <;> tauto

/-- Behaviour of the `bulk_sync_from_graphql_response` loop on an
arbitrary eligible-entry list: at most one row is appended per entry with
a non-empty master list, every appended row is built from the head of
some entry's master list, entries with an empty master list are counted
as skipped, and errors count exactly the entries with a master file but
no pid. -/
theorem bulkLoop_spec (es : List EligibleEntry) : ∀ st : GState,
    ((bulkLoop st es).1.docs.length
        ≤ st.docs.length + (es.filter (fun e => !e.master_files.isEmpty)).length)
    ∧ (∀ row ∈ (bulkLoop st es).1.docs, row ∈ st.docs ∨
        ∃ e ∈ es, ∃ mf tl, e.master_files = mf :: tl ∧
          ∃ n, row = mkGDoc n e.item mf e.ftype)
    ∧ (bulkLoop st es).2.2.1
        = (es.filter (fun e => e.master_files.isEmpty)).length
    ∧ (bulkLoop st es).2.2.2
        = (es.filter (fun e => !e.master_files.isEmpty && e.item.pid == "")).length := by
  induction es with
  | nil => intro st; simp [bulkLoop]
  | cons e es ih =>
      intro st
      cases hmf : e.master_files with
      | nil =>
          have heq : bulkLoop st (e :: es)
              = ((bulkLoop st es).1, (bulkLoop st es).2.1,
                 (bulkLoop st es).2.2.1 + 1, (bulkLoop st es).2.2.2) := by
            simp [bulkLoop, hmf]
          refine ⟨?_, ?_, ?_, ?_⟩
          · rw [heq]
            simpa [hmf, List.filter_cons] using
              le_trans ((ih st).1) (by omega)
          · intro row hrow
            rcases ((ih st).2.1 row (by rw [heq] at hrow; exact hrow)) with h | ⟨e', he', rest⟩
            · exact Or.inl h
            · exact Or.inr ⟨e', List.mem_cons_of_mem _ he', rest⟩
          · rw [heq]
            simp [hmf, List.filter_cons, (ih st).2.2.1]
          · rw [heq]
            simp [hmf, List.filter_cons, (ih st).2.2.2]
      | cons mf tl =>
          have hstep :
              syncGraphqlItemToDatabase st e.item mf e.ftype
                = (if e.item.pid = "" then (none, st)
                   else match st.docs.find? (fun row => row.pid == e.item.pid) with
                     | some existing => (some existing.document_id, st)
                     | none =>
                         (some (docIdOf st.next_id),
                          { st with
                              docs := st.docs ++ [mkGDoc st.next_id e.item mf e.ftype]
                              next_id := st.next_id + 1 })) := rfl
          by_cases hpid : e.item.pid = ""
          · have heq : bulkLoop st (e :: es)
                = ((bulkLoop st es).1, (bulkLoop st es).2.1,
                   (bulkLoop st es).2.2.1, (bulkLoop st es).2.2.2 + 1) := by
              simp [bulkLoop, hmf, syncGraphqlItemToDatabase, hpid]
            refine ⟨?_, ?_, ?_, ?_⟩
            · rw [heq]
              dsimp only
              have h1 := (ih st).1
              have hflen : ((e :: es).filter (fun x => !x.master_files.isEmpty)).length
                  = (es.filter (fun x => !x.master_files.isEmpty)).length + 1 := by
                simp [List.filter_cons, hmf]
              omega
            · intro row hrow
              rcases ((ih st).2.1 row (by rw [heq] at hrow; exact hrow)) with h | ⟨e', he', rest⟩
              · exact Or.inl h
              · exact Or.inr ⟨e', List.mem_cons_of_mem _ he', rest⟩
            · rw [heq]
              simp [hmf, List.filter_cons, (ih st).2.2.1]
            · rw [heq]
              simp [hmf, hpid, List.filter_cons, (ih st).2.2.2]
          · cases hfind : st.docs.find? (fun row => row.pid == e.item.pid) with
            | some existing =>
                have heq : bulkLoop st (e :: es)
                    = ((bulkLoop st es).1, (bulkLoop st es).2.1 + 1,
                       (bulkLoop st es).2.2.1, (bulkLoop st es).2.2.2) := by
                  simp [bulkLoop, hmf, syncGraphqlItemToDatabase, hpid, hfind]
                refine ⟨?_, ?_, ?_, ?_⟩
                · rw [heq]
                  dsimp only
                  have h1 := (ih st).1
                  have hflen : ((e :: es).filter (fun x => !x.master_files.isEmpty)).length
                      = (es.filter (fun x => !x.master_files.isEmpty)).length + 1 := by
                    simp [List.filter_cons, hmf]
                  omega
                · intro row hrow
                  rcases ((ih st).2.1 row (by rw [heq] at hrow; exact hrow)) with h | ⟨e', he', rest⟩
                  · exact Or.inl h
                  · exact Or.inr ⟨e', List.mem_cons_of_mem _ he', rest⟩
                · rw [heq]
                  simp [hmf, List.filter_cons, (ih st).2.2.1]
                · rw [heq]
                  simp [hmf, hpid, List.filter_cons, (ih st).2.2.2]
            | none =>
                have hst' : bulkLoop st (e :: es)
                    = ((bulkLoop { st with
                          docs := st.docs ++ [mkGDoc st.next_id e.item mf e.ftype]
                          next_id := st.next_id + 1 } es).1,
                       (bulkLoop { st with
                          docs := st.docs ++ [mkGDoc st.next_id e.item mf e.ftype]
                          next_id := st.next_id + 1 } es).2.1 + 1,
                       (bulkLoop { st with
                          docs := st.docs ++ [mkGDoc st.next_id e.item mf e.ftype]
                          next_id := st.next_id + 1 } es).2.2.1,
                       (bulkLoop { st with
                          docs := st.docs ++ [mkGDoc st.next_id e.item mf e.ftype]
                          next_id := st.next_id + 1 } es).2.2.2) := by
                  simp [bulkLoop, hmf, syncGraphqlItemToDatabase, hpid, hfind]
                set st' : GState :=
                  { st with
                      docs := st.docs ++ [mkGDoc st.next_id e.item mf e.ftype]
                      next_id := st.next_id + 1 } with hstdef
                refine ⟨?_, ?_, ?_, ?_⟩
                · rw [hst']
                  dsimp only
                  have h1 := (ih st').1
                  have h2 : st'.docs.length = st.docs.length + 1 := by
                    simp [hstdef]
                  have hflen : ((e :: es).filter (fun x => !x.master_files.isEmpty)).length
                      = (es.filter (fun x => !x.master_files.isEmpty)).length + 1 := by
                    simp [List.filter_cons, hmf]
                  omega
                · intro row hrow
                  rcases ((ih st').2.1 row (by rw [hst'] at hrow; exact hrow)) with h | ⟨e', he', rest⟩
                  · rcases (show row ∈ st.docs ∨ row = mkGDoc st.next_id e.item mf e.ftype by
                        simpa [hstdef] using h) with h' | h'
                    · exact Or.inl h'
                    · exact Or.inr ⟨e, List.mem_cons_self _ _, mf, tl, hmf, st.next_id, h'⟩
                  · exact Or.inr ⟨e', List.mem_cons_of_mem _ he', rest⟩
                · rw [hst']
                  simp [hmf, List.filter_cons, (ih st').2.2.1]
                · rw [hst']
                  simp [hmf, hpid, List.filter_cons, (ih st').2.2.2]

/-- C10: in a bulk sync, at most one document row is persisted per
training-eligible item; every persisted row comes from the head of the
item's master-file list (the remaining master files are never persisted);
and an eligible entry whose master-file list is empty is counted as
skipped, not as an error (errors count exactly the entries that have a
master file but no pid). -/
theorem bulk_sync_first_master_only (json : GJson) (st : GState) :
    ((bulkSyncFromGraphqlResponse json st).1.docs.length
        ≤ st.docs.length
          + ((parseGraphqlMediaResponse json).training_eligible.filter
              (fun e => !e.master_files.isEmpty)).length)
    ∧ (∀ row ∈ (bulkSyncFromGraphqlResponse json st).1.docs, row ∈ st.docs ∨
        ∃ e ∈ (parseGraphqlMediaResponse json).training_eligible,
          ∃ mf tl, e.master_files = mf :: tl ∧
            ∃ n, row = mkGDoc n e.item mf e.ftype)
    ∧ (bulkSyncFromGraphqlResponse json st).2.2.1
        = ((parseGraphqlMediaResponse json).training_eligible.filter
            (fun e => e.master_files.isEmpty)).length
    ∧ (bulkSyncFromGraphqlResponse json st).2.2.2
        = ((parseGraphqlMediaResponse json).training_eligible.filter
            (fun e => !e.master_files.isEmpty && e.item.pid == "")).length :=
  bulkLoop_spec (parseGraphqlMediaResponse json).training_eligible st

/-- The remote script's UPDATE leaves `pid` untouched. -/
theorem spUpdateRow_pid (now : Nat) (r : SyncRec) (row : SpDoc) :
    (spUpdateRow now r row).pid = row.pid := by
  unfold spUpdateRow
  split <;> rfl

/-- The remote script's UPDATE leaves `document_id` untouched. -/
theorem spUpdateRow_document_id (now : Nat) (r : SyncRec) (row : SpDoc) :
    (spUpdateRow now r row).document_id = row.document_id := by
  unfold spUpdateRow
  split <;> rfl

/-- Pointwise characterisation of mapping a function over a list, as a
`Forall₂` between the list and its image. -/
theorem forall2_map_self {α : Type} (P : α → α → Prop) (f : α → α) :
    ∀ l : List α, (∀ a ∈ l, P a (f a)) → List.Forall₂ P l (l.map f)
  | [], _ => List.Forall₂.nil
  | a :: l, h =>
      List.Forall₂.cons (h a (List.mem_cons_self a l))
        (forall2_map_self P f l (fun b hb => h b (List.mem_cons_of_mem a hb)))

/-- The closing UPDATE of the remote script preserves `sync_id`. -/
theorem spCompleteLog_sync_id (sid : String) (c : SpCounters) (row : SyncLogRow) :
    ((fun row => if row.sync_id == sid then
        { row with
            status := if c.records_failed == 0 then "completed" else "partial"
            records_new := c.records_new
            records_updated := c.records_updated
            records_failed := c.records_failed
            pids_processed := c.pids_processed
            pids_failed := c.pids_failed
            completed := true } else row) row).sync_id = row.sync_id := by
  dsimp only
  split <;> rfl

/-- C6 counterexample: `bulk_sync_from_graphql_response` is an orchestrator
run (here it parses one eligible item, persists one document row and
reports it synced) yet it creates no SyncRun at all: its final `sync_log`
is empty, refuting "every orchestrator run creates exactly one SyncRun
record at start". -/
theorem bulk_sync_creates_no_sync_run :
    (bulkSyncFromGraphqlResponse
        ⟨[⟨"id1", "564310168393", "T",
           [⟨"pdf_master", "u", "f.pdf", "l", true⟩], [], [], "d"⟩]⟩
        ⟨[], 0, []⟩).1.sync_log = []
    ∧ (bulkSyncFromGraphqlResponse
        ⟨[⟨"id1", "564310168393", "T",
           [⟨"pdf_master", "u", "f.pdf", "l", true⟩], [], [], "d"⟩]⟩
        ⟨[], 0, []⟩).2.1 = 1
    ∧ (bulkSyncFromGraphqlResponse
        ⟨[⟨"id1", "564310168393", "T",
           [⟨"pdf_master", "u", "f.pdf", "l", true⟩], [], [], "d"⟩]⟩
        ⟨[], 0, []⟩).1.docs.length = 1 := by
  decide

/-- C6 (amended): the `sync_parent_pids.py` remote-script orchestrator
creates exactly one SyncRun row at start and finalizes it exactly once
with a terminal status: when its `sync_id` is fresh, the run adds exactly
one `sync_log` row, exactly one row carries that `sync_id`, and every row
carrying it is finalized (`completed` timestamp set) with status
`completed` or `partial` — never left `running`. -/
theorem single_sync_run_finalized (fails : SyncRec → Bool) (now : Nat)
    (sid : String) (docs : List SpDoc) (log : List SyncLogRow)
    (records : List SyncRec)
    (h : ∀ row ∈ log, row.sync_id ≠ sid) :
    (remoteScriptRun fails now sid docs log records).2.1.length = log.length + 1
    ∧ ((remoteScriptRun fails now sid docs log records).2.1.filter
        (fun row => row.sync_id == sid)).length = 1
    ∧ (∀ row ∈ (remoteScriptRun fails now sid docs log records).2.1,
        row.sync_id = sid →
          row.completed = true ∧ row.status ≠ "running"
          ∧ (row.status = "completed" ∨ row.status = "partial")) := by
  refine ⟨?_, ?_, ?_⟩
  · show (spCompleteLog sid _ (spStartLog sid log)).length = log.length + 1
    simp [spCompleteLog, spStartLog]
  · show ((spCompleteLog sid _ (spStartLog sid log)).filter
        (fun row => row.sync_id == sid)).length = 1
    unfold spCompleteLog spStartLog
    rw [List.filter_map]
    have hpres : ∀ l : List SyncLogRow,
        l.filter (fun row =>
          ((fun row => if row.sync_id == sid then
              { row with
                  status := if (spLoop fails now docs records).2.records_failed == 0
                    then "completed" else "partial"
                  records_new := (spLoop fails now docs records).2.records_new
                  records_updated := (spLoop fails now docs records).2.records_updated
                  records_failed := (spLoop fails now docs records).2.records_failed
                  pids_processed := (spLoop fails now docs records).2.pids_processed
                  pids_failed := (spLoop fails now docs records).2.pids_failed
                  completed := true } else row) row).sync_id == sid)
          = l.filter (fun row => row.sync_id == sid) := by
      intro l
      apply List.filter_congr
      intro row _
      rw [spCompleteLog_sync_id sid (spLoop fails now docs records).2 row]
    rw [show (fun row : SyncLogRow => row.sync_id == sid) ∘
          (fun row => if row.sync_id == sid then
            { row with
                status := if (spLoop fails now docs records).2.records_failed == 0
                  then "completed" else "partial"
                records_new := (spLoop fails now docs records).2.records_new
                records_updated := (spLoop fails now docs records).2.records_updated
                records_failed := (spLoop fails now docs records).2.records_failed
                pids_processed := (spLoop fails now docs records).2.pids_processed
                pids_failed := (spLoop fails now docs records).2.pids_failed
                completed := true } else row)
        = (fun row : SyncLogRow =>
            ((fun row => if row.sync_id == sid then
              { row with
                  status := if (spLoop fails now docs records).2.records_failed == 0
                    then "completed" else "partial"
                  records_new := (spLoop fails now docs records).2.records_new
                  records_updated := (spLoop fails now docs records).2.records_updated
                  records_failed := (spLoop fails now docs records).2.records_failed
                  pids_processed := (spLoop fails now docs records).2.pids_processed
                  pids_failed := (spLoop fails now docs records).2.pids_failed
                  completed := true } else row) row).sync_id == sid) from rfl]
    rw [hpres]
    rw [List.filter_append]
    have hlog : log.filter (fun row => row.sync_id == sid) = [] := by
      refine List.filter_eq_nil_iff.mpr ?_
      intro row hrow
      simp [h row hrow]
    rw [hlog]
    simp
  · intro row hrow hsid
    rcases List.mem_map.mp hrow with ⟨orig, _, hform⟩
    by_cases hos : orig.sync_id == sid
    · rw [if_pos hos] at hform
      subst hform
      refine ⟨rfl, ?_, ?_⟩
      · dsimp only
        split <;> decide
      · dsimp only
        split
        · exact Or.inl rfl
        · exact Or.inr rfl
    · rw [if_neg hos] at hform
      subst hform
      exact absurd (by simp [hsid]) hos

/-- Witness for `single_sync_run_finalized`: a fresh sync over one record
starting from an empty log. -/
theorem single_sync_run_finalized_witness :
    (remoteScriptRun (fun _ => false) 3 "s1" [] []
        [⟨"a", "t", 1970, 1, 0, ⟨1, 0, 1, "d", "ddr_graphql", 0⟩⟩]).2.1.length = 0 + 1
    ∧ ((remoteScriptRun (fun _ => false) 3 "s1" [] []
        [⟨"a", "t", 1970, 1, 0, ⟨1, 0, 1, "d", "ddr_graphql", 0⟩⟩]).2.1.filter
          (fun row => row.sync_id == "s1")).length = 1 :=
  ⟨(single_sync_run_finalized (fun _ => false) 3 "s1" [] []
      [⟨"a", "t", 1970, 1, 0, ⟨1, 0, 1, "d", "ddr_graphql", 0⟩⟩]
      (by intro row hrow; cases hrow)).1,
   (single_sync_run_finalized (fun _ => false) 3 "s1" [] []
      [⟨"a", "t", 1970, 1, 0, ⟨1, 0, 1, "d", "ddr_graphql", 0⟩⟩]
      (by intro row hrow; cases hrow)).2.1⟩

/-- C8 counterexample: on a transport failure `sync_parent_pids.main`
aborts with exit code 1 before creating any SyncRun, so no row with
status `failed` (and no `error_log`) is ever written — the final
`sync_log` is empty, refuting "the run transitions directly to a final
'failed' status with the error captured in error_log". -/
theorem fetch_failure_writes_no_failed_row :
    (mainRun none (fun _ => false) 0 "s" [] []).sync_log = []
    ∧ (mainRun none (fun _ => false) 0 "s" [] []).exit_code = 1 := by
  decide

/-- C8 (amended): if the fetch collaborator fails, the run aborts with
exit code 1 after exactly one fetch attempt (no retry inside the run);
the persisted `documents` and `sync_log` tables are left exactly as they
were — zero DocumentRecords inserted or updated, and no SyncRun (hence no
`failed` status or error_log entry) is recorded, because the sync log is
only created after a successful fetch. -/
theorem fetch_failure_aborts_untouched (fails : SyncRec → Bool) (now : Nat)
    (sid : String) (docs : List SpDoc) (log : List SyncLogRow) :
    mainRun none fails now sid docs log = ⟨1, docs, log, 1⟩ := rfl

/-! ### Helper lemmas for the idempotence of the `quick_sync_pids.py` run -/

/-- The quick-sync UPDATE leaves `pid` untouched. -/
theorem quickUpdateRow_pid (t : Nat) (r : ParentRecord) (row : QuickDoc) :
    (quickUpdateRow t r row).pid = row.pid := by
  unfold quickUpdateRow
  split <;> rfl

/-- The quick-sync UPDATE is the identity on rows with another pid. -/
theorem quickUpdateRow_ne (t : Nat) (r : ParentRecord) (row : QuickDoc)
    (h : row.pid ≠ r.pid) : quickUpdateRow t r row = row := by
  unfold quickUpdateRow
  rw [if_neg (by simp [h])]

/-- Re-running the same record's UPDATE overwrites the first UPDATE. -/
theorem quickUpdateRow_absorb (t t' : Nat) (r : ParentRecord) (row : QuickDoc) :
    quickUpdateRow t r (quickUpdateRow t' r row) = quickUpdateRow t r row := by
  by_cases h : row.pid = r.pid
  · simp [quickUpdateRow, h]
  · rw [quickUpdateRow_ne t' r row h, quickUpdateRow_ne t r row h]

/-- UPDATEs for records with different pids commute row by row. -/
theorem quickUpdateRow_comm (t1 t2 : Nat) (x r : ParentRecord) (row : QuickDoc)
    (h : x.pid ≠ r.pid) :
    quickUpdateRow t2 r (quickUpdateRow t1 x row)
      = quickUpdateRow t1 x (quickUpdateRow t2 r row) := by
  by_cases hr : row.pid = r.pid
  · have hx : row.pid ≠ x.pid := fun hc => h (hc.symm.trans hr)
    rw [quickUpdateRow_ne t1 x row hx,
      quickUpdateRow_ne t1 x (quickUpdateRow t2 r row)
        (by rw [quickUpdateRow_pid]; exact hx)]
  · rw [quickUpdateRow_ne t2 r row hr,
      quickUpdateRow_ne t2 r (quickUpdateRow t1 x row)
        (by rw [quickUpdateRow_pid]; exact hr)]

/-- Mapping an UPDATE over the table does not change which pids exist. -/
theorem any_pid_map_update (t : Nat) (r : ParentRecord) (db : List QuickDoc)
    (q : String) :
    ((db.map (quickUpdateRow t r)).any (fun row => row.pid == q))
      = db.any (fun row => row.pid == q) := by
  induction db with
  | nil => rfl
  | cons row rest ih =>
      simp only [List.map_cons, List.any_cons, quickUpdateRow_pid, ih]

/-- An UPDATE for a pid that is absent from the table is a no-op. -/
theorem map_update_not_present (t : Nat) (r : ParentRecord) (db : List QuickDoc)
    (h : db.any (fun row => row.pid == r.pid) = false) :
    db.map (quickUpdateRow t r) = db := by
  have hall : ∀ row ∈ db, row.pid ≠ r.pid := by
    intro row hrow
    have := List.any_eq_false.mp h row hrow
    simpa using this
  calc db.map (quickUpdateRow t r)
      = db.map id := List.map_congr_left (fun row hrow =>
          quickUpdateRow_ne t r row (hall row hrow))
    _ = db := List.map_id db

/-- An UPDATE applied to the freshly inserted row of the same record is
the insert at the new timestamp. -/
theorem quickUpdateRow_insert (t t' : Nat) (r : ParentRecord) :
    quickUpdateRow t r (quickInsertRow t' r) = quickInsertRow t r := by
  simp [quickUpdateRow, quickInsertRow]

/-- Unfolding of the per-record step: skipped record. -/
theorem quickSyncRecord_skip (t : Nat) (db : List QuickDoc) (r : ParentRecord)
    (h : r.pid = "") : quickSyncRecord t db r = (db, 0, 0) := by
  unfold quickSyncRecord
  rw [if_pos h]

/-- Unfolding of the per-record step: UPDATE branch. -/
theorem quickSyncRecord_update (t : Nat) (db : List QuickDoc) (r : ParentRecord)
    (h : r.pid ≠ "") (hex : db.any (fun row => row.pid == r.pid) = true) :
    quickSyncRecord t db r = (db.map (quickUpdateRow t r), 0, 1) := by
  unfold quickSyncRecord
  rw [if_neg h, if_pos hex]

/-- Unfolding of the per-record step: INSERT branch. -/
theorem quickSyncRecord_insert (t : Nat) (db : List QuickDoc) (r : ParentRecord)
    (h : r.pid ≠ "") (hex : db.any (fun row => row.pid == r.pid) = false) :
    quickSyncRecord t db r = (db ++ [quickInsertRow t r], 1, 0) := by
  unfold quickSyncRecord
  rw [if_neg h, if_neg (by simp [hex])]

/-- Unfolding of the run on a non-empty batch. -/
theorem quickSyncRun_cons (t : Nat) (db : List QuickDoc) (r : ParentRecord)
    (rs : List ParentRecord) :
    quickSyncRun t db (r :: rs)
      = ((quickSyncRun t (quickSyncRecord t db r).1 rs).1,
         (quickSyncRecord t db r).2.1
           + (quickSyncRun t (quickSyncRecord t db r).1 rs).2.1,
         (quickSyncRecord t db r).2.2
           + (quickSyncRun t (quickSyncRecord t db r).1 rs).2.2) := rfl

/-- A pid existing in the table still exists after one step. -/
theorem step_any_mono (t : Nat) (db : List QuickDoc) (r : ParentRecord)
    (q : String) (h : db.any (fun row => row.pid == q) = true) :
    ((quickSyncRecord t db r).1).any (fun row => row.pid == q) = true := by
  by_cases h0 : r.pid = ""
  · rw [quickSyncRecord_skip t db r h0]
    exact h
  · cases hex : db.any (fun row => row.pid == r.pid) with
    | true =>
        rw [quickSyncRecord_update t db r h0 hex]
        dsimp only
        rw [any_pid_map_update]
        exact h
    | false =>
        rw [quickSyncRecord_insert t db r h0 hex]
        dsimp only
        rw [List.any_append, h]
        rfl

/-- After processing a record with a pid, that pid exists in the table. -/
theorem step_any_self (t : Nat) (db : List QuickDoc) (r : ParentRecord)
    (h : r.pid ≠ "") :
    ((quickSyncRecord t db r).1).any (fun row => row.pid == r.pid) = true := by
  cases hex : db.any (fun row => row.pid == r.pid) with
  | true =>
      rw [quickSyncRecord_update t db r h hex]
      dsimp only
      rw [any_pid_map_update]
      exact hex
  | false =>
      rw [quickSyncRecord_insert t db r h hex]
      dsimp only
      rw [List.any_append]
      simp [quickInsertRow]

/-- A pid existing in the table still exists after a whole run. -/
theorem run_any_mono (t : Nat) (q : String) :
    ∀ (rs : List ParentRecord) (db : List QuickDoc),
    db.any (fun row => row.pid == q) = true →
    ((quickSyncRun t db rs).1).any (fun row => row.pid == q) = true := by
  intro rs
  induction rs with
  | nil => intro db h; exact h
  | cons r rs ih =>
      intro db h
      rw [quickSyncRun_cons]
      exact ih _ (step_any_mono t db r q h)

/-- Every valid pid of the batch exists in the table after the run. -/
theorem run_establishes_presence (t : Nat) :
    ∀ (rs : List ParentRecord) (db : List QuickDoc) (x : ParentRecord),
    x ∈ rs → x.pid ≠ "" →
    ((quickSyncRun t db rs).1).any (fun row => row.pid == x.pid) = true := by
  intro rs
  induction rs with
  | nil => intro db x hx; cases hx
  | cons r rs ih =>
      intro db x hx hpid
      rw [quickSyncRun_cons]
      rcases List.mem_cons.mp hx with hx | hx
      · subst hx
        exact run_any_mono t x.pid rs _ (step_any_self t db x hpid)
      · exact ih _ x hx hpid

/-- Re-applying a record's UPDATE after its own step is the step at the
new timestamp. -/
theorem map_update_step (t t' : Nat) (db : List QuickDoc) (r : ParentRecord)
    (h : r.pid ≠ "") :
    ((quickSyncRecord t' db r).1).map (quickUpdateRow t r)
      = (quickSyncRecord t db r).1 := by
  cases hex : db.any (fun row => row.pid == r.pid) with
  | true =>
      rw [quickSyncRecord_update t' db r h hex, quickSyncRecord_update t db r h hex]
      dsimp only
      rw [List.map_map]
      exact List.map_congr_left (fun row _ => quickUpdateRow_absorb t t' r row)
  | false =>
      rw [quickSyncRecord_insert t' db r h hex, quickSyncRecord_insert t db r h hex]
      dsimp only
      rw [List.map_append, map_update_not_present t r db hex]
      simp [quickUpdateRow_insert]

/-- A later record's step commutes with the UPDATE of a record with a
different pid. -/
theorem map_update_step_comm (t1 t2 : Nat) (db : List QuickDoc)
    (x r : ParentRecord) (h : x.pid ≠ r.pid) :
    ((quickSyncRecord t1 db x).1).map (quickUpdateRow t2 r)
      = (quickSyncRecord t1 (db.map (quickUpdateRow t2 r)) x).1 := by
  by_cases hx0 : x.pid = ""
  · rw [quickSyncRecord_skip t1 db x hx0,
      quickSyncRecord_skip t1 (db.map (quickUpdateRow t2 r)) x hx0]
  · cases hex : db.any (fun row => row.pid == x.pid) with
    | true =>
        rw [quickSyncRecord_update t1 db x hx0 hex,
          quickSyncRecord_update t1 (db.map (quickUpdateRow t2 r)) x hx0
            (by rw [any_pid_map_update]; exact hex)]
        dsimp only
        rw [List.map_map, List.map_map]
        exact List.map_congr_left (fun row _ => quickUpdateRow_comm t1 t2 x r row h)
    | false =>
        rw [quickSyncRecord_insert t1 db x hx0 hex,
          quickSyncRecord_insert t1 (db.map (quickUpdateRow t2 r)) x hx0
            (by rw [any_pid_map_update]; exact hex)]
        dsimp only
        rw [List.map_append]
        congr 1
        simp only [List.map_cons, List.map_nil]
        rw [quickUpdateRow_ne t2 r (quickInsertRow t1 x) (by simp [quickInsertRow, h])]

/-- A record's UPDATE commutes with the rest of the run when its pid does
not occur again in the remaining batch. -/
theorem map_update_run_comm (t1 t2 : Nat) (r : ParentRecord) :
    ∀ (tl : List ParentRecord) (s : List QuickDoc),
    (∀ x ∈ tl, x.pid ≠ r.pid) →
    ((quickSyncRun t1 s tl).1).map (quickUpdateRow t2 r)
      = (quickSyncRun t1 (s.map (quickUpdateRow t2 r)) tl).1 := by
  intro tl
  induction tl with
  | nil => intro s _; rfl
  | cons x xs ih =>
      intro s htl
      rw [quickSyncRun_cons, quickSyncRun_cons]
      dsimp only
      rw [ih _ (fun y hy => htl y (List.mem_cons_of_mem x hy)),
        map_update_step_comm t1 t2 s x r (htl x (List.mem_cons_self x xs))]

/-- Running the same batch again yields the same final table, provided the
valid pids of the batch are pairwise distinct. -/
theorem quickSyncRun_idem_state (t1 t2 : Nat) :
    ∀ (rs : List ParentRecord) (db : List QuickDoc),
    (((rs.filter (fun r => r.pid ≠ "")).map (fun r => r.pid)).Nodup) →
    (quickSyncRun t2 (quickSyncRun t1 db rs).1 rs).1 = (quickSyncRun t2 db rs).1 := by
  intro rs
  induction rs with
  | nil => intro db _; rfl
  | cons r tl ih =>
      intro db hnd
      by_cases hr0 : r.pid = ""
      · have hnd' : ((tl.filter (fun r => r.pid ≠ "")).map (fun r => r.pid)).Nodup := by
          have : (r :: tl).filter (fun r => r.pid ≠ "")
              = tl.filter (fun r => r.pid ≠ "") := by
            rw [List.filter_cons_of_neg (by simp [hr0])]
          rw [this] at hnd
          exact hnd
        rw [quickSyncRun_cons t1 db r tl, quickSyncRun_cons t2 db r tl]
        dsimp only
        rw [quickSyncRecord_skip t1 db r hr0, quickSyncRecord_skip t2 db r hr0]
        dsimp only
        rw [quickSyncRun_cons t2 (quickSyncRun t1 db tl).1 r tl]
        dsimp only
        rw [quickSyncRecord_skip t2 (quickSyncRun t1 db tl).1 r hr0]
        exact ih db hnd'
      · have hfc : (r :: tl).filter (fun r => r.pid ≠ "")
            = r :: tl.filter (fun r => r.pid ≠ "") := by
          rw [List.filter_cons_of_pos (by simp [hr0])]
        rw [hfc, List.map_cons, List.nodup_cons] at hnd
        obtain ⟨hnotin, hnd'⟩ := hnd
        have htl : ∀ x ∈ tl, x.pid ≠ r.pid := by
          intro x hx
          by_cases hx0 : x.pid = ""
          · rw [hx0]
            exact fun hc => hr0 hc.symm
          · intro hc
            apply hnotin
            rw [← hc]
            exact List.mem_map_of_mem _ (List.mem_filter.mpr ⟨hx, by simp [hx0]⟩)
        have hpresB : ((quickSyncRun t1 (quickSyncRecord t1 db r).1 tl).1).any
            (fun row => row.pid == r.pid) = true :=
          run_any_mono t1 r.pid tl _ (step_any_self t1 db r hr0)
        rw [quickSyncRun_cons t1 db r tl]
        dsimp only
        rw [quickSyncRun_cons t2 (quickSyncRun t1 (quickSyncRecord t1 db r).1 tl).1 r tl]
        dsimp only
        rw [quickSyncRecord_update t2 _ r hr0 hpresB]
        dsimp only
        rw [map_update_run_comm t1 t2 r tl _ htl]
        rw [map_update_step t2 t1 db r hr0]
        rw [quickSyncRun_cons t2 db r tl]
        dsimp only
        exact ih (quickSyncRecord t2 db r).1 hnd'

/-- When every valid pid of the batch is already in the table, a run
performs no inserts and exactly one update per valid record. -/
theorem quickSyncRun_all_updates (t : Nat) :
    ∀ (rs : List ParentRecord) (db : List QuickDoc),
    (∀ x ∈ rs, x.pid ≠ "" → db.any (fun row => row.pid == x.pid) = true) →
    (quickSyncRun t db rs).2.1 = 0
    ∧ (quickSyncRun t db rs).2.2 = (rs.filter (fun r => r.pid ≠ "")).length := by
  intro rs
  induction rs with
  | nil => intro db _; exact ⟨rfl, rfl⟩
  | cons r tl ih =>
      intro db hall
      rw [quickSyncRun_cons]
      by_cases hr0 : r.pid = ""
      · rw [quickSyncRecord_skip t db r hr0]
        dsimp only
        have h := ih db (fun x hx => hall x (List.mem_cons_of_mem r hx))
        rw [List.filter_cons_of_neg (by simp [hr0])]
        have h1 := h.1
        have h2 := h.2
        exact ⟨by omega, by omega⟩
      · have hex := hall r (List.mem_cons_self r tl) hr0
        rw [quickSyncRecord_update t db r hr0 hex]
        dsimp only
        have h := ih (db.map (quickUpdateRow t r)) (fun x hx hxp => by
          rw [any_pid_map_update]
          exact hall x (List.mem_cons_of_mem r hx) hxp)
        rw [List.filter_cons_of_pos (by simp [hr0])]
        have h1 := h.1
        have h2 := h.2
        refine ⟨by omega, ?_⟩
        rw [List.length_cons]
        omega

/-- C4: running the same fetch-batch through the `quick_sync_pids.py`
pipeline twice produces the same final persisted state as running it once
(comparing the runs at the same wall-clock stamp of the second run), and
the second run reports every record with a pid as updated and none as
inserted.  The batch's valid pids are assumed pairwise distinct, as a
GraphQL fetch keys parent records by pid. -/
theorem pipeline_idempotent (t1 t2 : Nat) (records : List ParentRecord)
    (db : List QuickDoc)
    (h : (((records.filter (fun r => r.pid ≠ "")).map (fun r => r.pid)).Nodup)) :
    (quickSyncRun t2 (quickSyncRun t1 db records).1 records).1
        = (quickSyncRun t2 db records).1
    ∧ (quickSyncRun t2 (quickSyncRun t1 db records).1 records).2.1 = 0
    ∧ (quickSyncRun t2 (quickSyncRun t1 db records).1 records).2.2
        = (records.filter (fun r => r.pid ≠ "")).length := by
  have hcnt := quickSyncRun_all_updates t2 records (quickSyncRun t1 db records).1
    (fun x hx hxp => run_establishes_presence t1 records db x hx hxp)
  exact ⟨quickSyncRun_idem_state t1 t2 records db h, hcnt.1, hcnt.2⟩

/-- Witness for `pipeline_idempotent`: a two-record batch with distinct
pids run twice from an empty table. -/
theorem pipeline_idempotent_witness :
    (quickSyncRun 8 (quickSyncRun 7 []
        [⟨"p1", "T1", "1968-01-01", [⟨[⟨"pdf_master", "a.pdf"⟩], [⟨"a.pdf", true⟩]⟩]⟩,
         ⟨"p2", "T2", "1972-01-01", []⟩]).1
        [⟨"p1", "T1", "1968-01-01", [⟨[⟨"pdf_master", "a.pdf"⟩], [⟨"a.pdf", true⟩]⟩]⟩,
         ⟨"p2", "T2", "1972-01-01", []⟩]).1
      = (quickSyncRun 8 []
        [⟨"p1", "T1", "1968-01-01", [⟨[⟨"pdf_master", "a.pdf"⟩], [⟨"a.pdf", true⟩]⟩]⟩,
         ⟨"p2", "T2", "1972-01-01", []⟩]).1
    ∧ (quickSyncRun 8 (quickSyncRun 7 []
        [⟨"p1", "T1", "1968-01-01", [⟨[⟨"pdf_master", "a.pdf"⟩], [⟨"a.pdf", true⟩]⟩]⟩,
         ⟨"p2", "T2", "1972-01-01", []⟩]).1
        [⟨"p1", "T1", "1968-01-01", [⟨[⟨"pdf_master", "a.pdf"⟩], [⟨"a.pdf", true⟩]⟩]⟩,
         ⟨"p2", "T2", "1972-01-01", []⟩]).2.1 = 0
    ∧ (quickSyncRun 8 (quickSyncRun 7 []
        [⟨"p1", "T1", "1968-01-01", [⟨[⟨"pdf_master", "a.pdf"⟩], [⟨"a.pdf", true⟩]⟩]⟩,
         ⟨"p2", "T2", "1972-01-01", []⟩]).1
        [⟨"p1", "T1", "1968-01-01", [⟨[⟨"pdf_master", "a.pdf"⟩], [⟨"a.pdf", true⟩]⟩]⟩,
         ⟨"p2", "T2", "1972-01-01", []⟩]).2.2 = 2 := by
  have h := pipeline_idempotent 7 8
    [⟨"p1", "T1", "1968-01-01", [⟨[⟨"pdf_master", "a.pdf"⟩], [⟨"a.pdf", true⟩]⟩]⟩,
     ⟨"p2", "T2", "1972-01-01", []⟩] [] (by decide)
  exact ⟨h.1, h.2.1, h.2.2.trans (by decide)⟩

/-- The quick-sync UPDATE leaves `document_id` untouched. -/
theorem quickUpdateRow_document_id (t : Nat) (r : ParentRecord) (row : QuickDoc) :
    (quickUpdateRow t r row).document_id = row.document_id := by
  unfold quickUpdateRow
  split <;> rfl

/-- C5 counterexample: the claim says every re-sync of an existing pid
increments the row's `sync_version`, and it cites the
`quick_sync_pids.py` upsert — but that script's UPDATE SET list (title,
publication_year, pdf_count, doc_metadata, last_synced_at) omits
`sync_version`.  Here a re-sync of the existing pid `p1` is reported as
one update (counters `(0, 1)`) yet leaves the persisted row bit-for-bit
unchanged, so no counter on the row — `sync_version` included — is
incremented on this cited path. -/
theorem quick_sync_no_version_increment :
    (quickSyncRun 5
        [⟨"doc_pid_p1", "T", 1968, "p1.pdf", "p1", 1, ⟨1, "ddr_graphql"⟩, 5⟩]
        [⟨"p1", "T", "1968-01-01",
          [⟨[⟨"pdf_master", "a.pdf"⟩], [⟨"a.pdf", true⟩]⟩]⟩]).1
      = [⟨"doc_pid_p1", "T", 1968, "p1.pdf", "p1", 1, ⟨1, "ddr_graphql"⟩, 5⟩]
    ∧ (quickSyncRun 5
        [⟨"doc_pid_p1", "T", 1968, "p1.pdf", "p1", 1, ⟨1, "ddr_graphql"⟩, 5⟩]
        [⟨"p1", "T", "1968-01-01",
          [⟨[⟨"pdf_master", "a.pdf"⟩], [⟨"a.pdf", true⟩]⟩]⟩]).2 = (0, 1) := by
  decide

/-- C5 (amended): re-syncing a pid already present in the persisted store
updates the existing row in place on both upsert paths — no row is added
or removed, the pid column (hence pid uniqueness) and every
`document_id` are unchanged, rows with other pids are untouched, and no
insert is reported.  Only the `sync_parent_pids.py` remote-script path
additionally increments the matching row's `sync_version`, by exactly
one per re-sync, so `sync_version` increases monotonically across its
re-syncs; the `quick_sync_pids.py` UPDATE omits `sync_version` from its
SET list and leaves it unchanged. -/
theorem resync_updates_in_place (now : Nat) (docs : List SpDoc) (r : SyncRec)
    (h : docs.any (fun row => row.pid == r.pid) = true) :
    (spUpsert now docs r).2 = false
    ∧ (spUpsert now docs r).1.length = docs.length
    ∧ (spUpsert now docs r).1.map (fun row => row.pid) = docs.map (fun row => row.pid)
    ∧ (spUpsert now docs r).1.map (fun row => row.document_id)
        = docs.map (fun row => row.document_id)
    ∧ List.Forall₂ (fun row row' =>
        row'.pid = row.pid ∧ row'.document_id = row.document_id
        ∧ (row.pid = r.pid → row'.sync_version = row.sync_version + 1
            ∧ row.sync_version < row'.sync_version)
        ∧ (row.pid ≠ r.pid → row' = row)) docs (spUpsert now docs r).1
    ∧ (∀ (t : Nat) (rq : ParentRecord) (qdb : List QuickDoc),
        rq.pid ≠ "" → qdb.any (fun row => row.pid == rq.pid) = true →
          (quickSyncRecord t qdb rq).1.length = qdb.length
          ∧ (quickSyncRecord t qdb rq).1.map (fun row => row.pid)
              = qdb.map (fun row => row.pid)
          ∧ (quickSyncRecord t qdb rq).1.map (fun row => row.document_id)
              = qdb.map (fun row => row.document_id)
          ∧ (quickSyncRecord t qdb rq).2.1 = 0) := by
  have hup : spUpsert now docs r = (docs.map (spUpdateRow now r), false) := by
    unfold spUpsert
    rw [h]
    rfl
  rw [hup]
  refine ⟨rfl, by simp, ?_, ?_, ?_, ?_⟩
  · rw [List.map_map]
    exact List.map_congr_left (fun row _ => spUpdateRow_pid now r row)
  · rw [List.map_map]
    exact List.map_congr_left (fun row _ => spUpdateRow_document_id now r row)
  · refine forall2_map_self _ _ docs (fun row _ => ?_)
    refine ⟨spUpdateRow_pid now r row, spUpdateRow_document_id now r row, ?_, ?_⟩
    · intro hpid
      unfold spUpdateRow
      rw [if_pos (by simp [hpid])]
      exact ⟨rfl, Nat.lt_succ_self _⟩
    · intro hpid
      unfold spUpdateRow
      rw [if_neg (by simp [hpid])]
  · intro t rq qdb hrq hex
    rw [quickSyncRecord_update t qdb rq hrq hex]
    dsimp only
    refine ⟨by simp, ?_, ?_, rfl⟩
    · rw [List.map_map]
      exact List.map_congr_left (fun row _ => quickUpdateRow_pid t rq row)
    · rw [List.map_map]
      exact List.map_congr_left (fun row _ => quickUpdateRow_document_id t rq row)

/-- Witness for `resync_updates_in_place`: a one-row remote-script table
holding pid `p1` re-synced with a record for `p1`, and a one-row
quick-sync table holding pid `p1` re-processed by a record for `p1`. -/
theorem resync_updates_in_place_witness :
    (spUpsert 9 [⟨"doc_pid_p1", "t", 1970, "p1.pdf", "p1", 1, 0,
        ⟨1, 0, 1, "d", "ddr_graphql", 0⟩, 0, 3⟩]
      ⟨"p1", "t2", 1971, 2, 0, ⟨2, 0, 1, "d", "ddr_graphql", 9⟩⟩).2 = false
    ∧ (spUpsert 9 [⟨"doc_pid_p1", "t", 1970, "p1.pdf", "p1", 1, 0,
        ⟨1, 0, 1, "d", "ddr_graphql", 0⟩, 0, 3⟩]
      ⟨"p1", "t2", 1971, 2, 0, ⟨2, 0, 1, "d", "ddr_graphql", 9⟩⟩).1.length = 1
    ∧ (quickSyncRecord 5
        [⟨"doc_pid_p1", "T", 1968, "p1.pdf", "p1", 1, ⟨1, "ddr_graphql"⟩, 5⟩]
        ⟨"p1", "T2", "1969-01-01", []⟩).1.length = 1 :=
  ⟨(resync_updates_in_place 9 _ _ (by decide)).1,
   (resync_updates_in_place 9 _ _ (by decide)).2.1,
   ((resync_updates_in_place 9
      [⟨"doc_pid_p1", "t", 1970, "p1.pdf", "p1", 1, 0,
        ⟨1, 0, 1, "d", "ddr_graphql", 0⟩, 0, 3⟩]
      ⟨"p1", "t2", 1971, 2, 0, ⟨2, 0, 1, "d", "ddr_graphql", 9⟩⟩
      (by decide)).2.2.2.2.2 5 ⟨"p1", "T2", "1969-01-01", []⟩
      [⟨"doc_pid_p1", "T", 1968, "p1.pdf", "p1", 1, ⟨1, "ddr_graphql"⟩, 5⟩]
      (by decide) (by decide)).1⟩

/-- C7 (code bug): the per-record `try/except` of the remote script never
rolls back, and all the loop's statements share one psycopg2
transaction, committed only after the loop.  On the batch `[a, b, c]`
with a persistence failure on `b`: the transaction aborts at `b`, so
`c`'s statements raise `InFailedSqlTransaction` and are counted failed,
and the final COMMIT of the aborted transaction rolls back `a`'s insert
— zero rows are persisted, while the counters still report
`records_new = 1` and the run closes as `partial`.  The claim (and the
spec's one-transaction-per-record rule, and the script's own
`TRANSACTIONS (rollback on errors)` docstring) requires `a` and `c` to
be persisted and only `b` counted failed. -/
theorem remote_script_shared_transaction_rollback :
    (remoteScriptRunTx (fun r => r.pid == "b") 3 "s1" [] []
        [⟨"a", "t", 1970, 1, 0, ⟨1, 0, 1, "d", "ddr_graphql", 0⟩⟩,
         ⟨"b", "t", 1970, 1, 0, ⟨1, 0, 1, "d", "ddr_graphql", 0⟩⟩,
         ⟨"c", "t", 1970, 1, 0, ⟨1, 0, 1, "d", "ddr_graphql", 0⟩⟩]).1 = []
    ∧ (remoteScriptRunTx (fun r => r.pid == "b") 3 "s1" [] []
        [⟨"a", "t", 1970, 1, 0, ⟨1, 0, 1, "d", "ddr_graphql", 0⟩⟩,
         ⟨"b", "t", 1970, 1, 0, ⟨1, 0, 1, "d", "ddr_graphql", 0⟩⟩,
         ⟨"c", "t", 1970, 1, 0, ⟨1, 0, 1, "d", "ddr_graphql", 0⟩⟩]).2.2.records_new = 1
    ∧ (remoteScriptRunTx (fun r => r.pid == "b") 3 "s1" [] []
        [⟨"a", "t", 1970, 1, 0, ⟨1, 0, 1, "d", "ddr_graphql", 0⟩⟩,
         ⟨"b", "t", 1970, 1, 0, ⟨1, 0, 1, "d", "ddr_graphql", 0⟩⟩,
         ⟨"c", "t", 1970, 1, 0, ⟨1, 0, 1, "d", "ddr_graphql", 0⟩⟩]).2.2.records_failed = 2
    ∧ (remoteScriptRunTx (fun r => r.pid == "b") 3 "s1" [] []
        [⟨"a", "t", 1970, 1, 0, ⟨1, 0, 1, "d", "ddr_graphql", 0⟩⟩,
         ⟨"b", "t", 1970, 1, 0, ⟨1, 0, 1, "d", "ddr_graphql", 0⟩⟩,
         ⟨"c", "t", 1970, 1, 0, ⟨1, 0, 1, "d", "ddr_graphql", 0⟩⟩]).2.2.pids_failed
        = ["b", "c"]
    ∧ (remoteScriptRunTx (fun r => r.pid == "b") 3 "s1" [] []
        [⟨"a", "t", 1970, 1, 0, ⟨1, 0, 1, "d", "ddr_graphql", 0⟩⟩,
         ⟨"b", "t", 1970, 1, 0, ⟨1, 0, 1, "d", "ddr_graphql", 0⟩⟩,
         ⟨"c", "t", 1970, 1, 0, ⟨1, 0, 1, "d", "ddr_graphql", 0⟩⟩]).2.2.pids_processed
        = ["a"]
    ∧ (remoteScriptRunTx (fun r => r.pid == "b") 3 "s1" [] []
        [⟨"a", "t", 1970, 1, 0, ⟨1, 0, 1, "d", "ddr_graphql", 0⟩⟩,
         ⟨"b", "t", 1970, 1, 0, ⟨1, 0, 1, "d", "ddr_graphql", 0⟩⟩,
         ⟨"c", "t", 1970, 1, 0, ⟨1, 0, 1, "d", "ddr_graphql", 0⟩⟩]).2.1.map
          (fun row => row.status) = ["partial"] := by
  decide

end PhdPractice
